import Mathlib

/-!
Verification development for the streamlit-aggrid-redux repository.

The Python sources are shallowly embedded: Python dicts become ordered
association lists (insertion order preserved, as in CPython), fallible
code returns Except, and in-place mutation becomes explicit state passing.
Pandas, pyarrow and numpy values are abstracted to their structural
content (container kind, column order, row count); value-level casting
performed by astype and friends is not modelled because no claim below
depends on individual cell values.
-/

/-- Ordered dictionary over string keys, the embedding of a Python dict
whose insertion order is observable. -/
def dget {α : Type} (d : List (String × α)) (k : String) : Option α :=
  (d.find? (fun kv => kv.1 == k)).map (fun kv => kv.2)

/-- Membership test, the embedding of the Python `in` operator on dicts. -/
def dmem {α : Type} (d : List (String × α)) (k : String) : Bool :=
  (dget d k).isSome

/-- Assignment `d[k] = v`: replace in place when the key exists, otherwise
append, exactly as CPython dicts preserve insertion order. -/
def dset {α : Type} : List (String × α) → String → α → List (String × α)
  | [], k, v => [(k, v)]
  | (k1, v1) :: rest, k, v =>
      if k1 == k then (k1, v) :: rest else (k1, v1) :: dset rest k v

/-- The embedding of `d.update(kvs)`: fold assignment over the new pairs. -/
def dupdate {α : Type} (d : List (String × α)) (kvs : List (String × α)) : List (String × α) :=
  kvs.foldl (fun acc kv => dset acc kv.1 kv.2) d

/-- The embedding of `d.pop(k, None)`: drop the key when present. -/
def dpop {α : Type} (d : List (String × α)) (k : String) : List (String × α) :=
  d.filter (fun kv => !(kv.1 == k))

/-- A JSON-like value tree, the embedding of the values stored in the grid
options dictionary.  A JsCode object (code.py) is the `js` constructor,
carrying its injected placeholder-wrapped code string. -/
inductive GVal where
  | s (v : String)
  | js (code : String)
  | b (v : Bool)
  | n (v : Int)
  | list (xs : List GVal)
  | obj (kvs : List (String × GVal))

/-- The caller-supplied data container (types.py DataElement): a pandas
DataFrame or pyarrow Table with an ordered column list and a row count, a
numpy array with a row count, a dict with its keys, or a raw string. -/
inductive DataElement where
  | frame (cols : List String) (nrows : Nat)
  | table (cols : List String) (nrows : Nat)
  | array (nrows : Nat)
  | dict (cols : List String)
  | text (v : String)
deriving DecidableEq

/-- The coarse container kind of a DataElement. -/
inductive DataKind where
  | frame
  | table
  | array
  | dict
  | text
deriving DecidableEq

/-- Kind tag of a data element. -/
def DataElement.kind : DataElement → DataKind
  | .frame _ _ => .frame
  | .table _ _ => .table
  | .array _ => .array
  | .dict _ => .dict
  | .text _ => .text

/-- The decoder's output data (grid_return.py): either the original input
object returned unchanged by the short-circuit branches, or a reshaped
working frame (frameOut keeps pandas, tableOut densifies via
pa.Table.from_pandas, arrayOut via to_numpy, dictOut via to_dict, jsonOut
via to_json). -/
inductive ResultData where
  | original (d : DataElement)
  | frameOut (cols : List String) (nrows : Nat)
  | tableOut (cols : List String) (nrows : Nat)
  | arrayOut (nrows : Nat)
  | dictOut (cols : List String) (nrows : Nat)
  | jsonOut (cols : List String) (nrows : Nat)
deriving DecidableEq

/-- Container kind of a decoder result. -/
def ResultData.kind : ResultData → DataKind
  | .original d => d.kind
  | .frameOut _ _ => .frame
  | .tableOut _ _ => .table
  | .arrayOut _ => .array
  | .dictOut _ _ => .dict
  | .jsonOut _ _ => .text

/-- One widget row record, abstracted to its ordered key list; cell values
play no role in any claim settled here. -/
abbrev RowRec := List String

/-- The parsed component payload consumed by generate_response, with the
four keys it reads (`rowData`, `selectedData`, `selectedRows`,
`selectedItems`).  The JSON-string form of the payload is taken as already
parsed into this structure. -/
structure WidgetResponse where
  rowData : List RowRec
  selectedData : Option (List RowRec)
  selectedRows : Option (List RowRec)
  selectedItems : Option (List RowRec)
deriving DecidableEq

/-- Column order of `pd.DataFrame(rowData)` built from a list of records:
the record keys in order of first appearance. -/
def dfColumns (rows : List RowRec) : List String :=
  rows.foldl (fun acc row => row.foldl (fun a k => if a.contains k then a else a ++ [k]) acc) []

/-- The embedding of grid_return.py GridReturn: the attributes set by
`__new__` (`data_`, `sel_data`, `sel_row`, `sel_items`). -/
structure GridReturn where
  data_ : ResultData
  sel_data : Option (List RowRec)
  sel_row : Option (List RowRec)
  sel_items : Option (List RowRec)
deriving DecidableEq

/-- The embedding of grid_return.py generate_response.  The astype and
from_pandas value coercion controlled by `convert_to_original_types` and
`errors` is abstracted to its effect on structure: astype keeps the working
frame's columns, `pa.Table.from_pandas(frame, data.schema)` adopts the
original schema's column order. -/
def generate_response (component_value : Option WidgetResponse) (data : DataElement)
    (convert_to_original_types : Bool) (errors : String) : GridReturn :=
  match component_value with
  | none => ⟨.original data, none, none, none⟩
  | some cv =>
      if cv.rowData.length = 0 then ⟨.original data, none, none, none⟩
      else
        let cols := dfColumns cv.rowData
        let n := cv.rowData.length
        let out : ResultData :=
          match data with
          | .frame _ _ => .frameOut cols n
          | .table origCols _ =>
              if convert_to_original_types then .tableOut origCols n else .tableOut cols n
          | .array _ => .arrayOut n
          | .dict _ => .dictOut cols n
          | .text _ => .jsonOut cols n
        ⟨out, cv.selectedData, cv.selectedRows, cv.selectedItems⟩

/-- Python exception values raised by GridReturn attribute and key access. -/
inductive PyErr where
  | attributeError (name : String)
  | keyError (key : String)
deriving DecidableEq

/-- A value read off a GridReturn attribute. -/
inductive AttrVal where
  | dataVal (d : ResultData)
  | selVal (v : Option (List RowRec))
deriving DecidableEq

/-- Python attribute lookup on a GridReturn object: `__new__` (and the
class body) define exactly `data_`, `sel_data`, `sel_row` and `sel_items`;
any other name raises AttributeError. -/
def GridReturn.lookupAttr (g : GridReturn) (name : String) : Except PyErr AttrVal :=
  if name == "data_" then .ok (.dataVal g.data_)
  else if name == "sel_data" then .ok (.selVal g.sel_data)
  else if name == "sel_row" then .ok (.selVal g.sel_row)
  else if name == "sel_items" then .ok (.selVal g.sel_items)
  else .error (.attributeError name)

/-- The `data` property: `return self.data_`. -/
def GridReturn.dataProp (g : GridReturn) : Except PyErr AttrVal :=
  g.lookupAttr "data_"

/-- The `selected_data` property: `return self.sel_data`. -/
def GridReturn.selectedDataProp (g : GridReturn) : Except PyErr AttrVal :=
  g.lookupAttr "sel_data"

/-- The `selected_rows` property: `return self.selected`. -/
def GridReturn.selectedRowsProp (g : GridReturn) : Except PyErr AttrVal :=
  g.lookupAttr "selected"

/-- The `selected_items` property: `return self.state`. -/
def GridReturn.selectedItemsProp (g : GridReturn) : Except PyErr AttrVal :=
  g.lookupAttr "state"

/-- Executable embedding of Python `str.lower` (ASCII, the only case the
sources exercise). -/
def pyLower (s : String) : String :=
  String.mk (s.data.map Char.toLower)

/-- Executable embedding of Python `str.startswith`. -/
def pyStartsWith (s p : String) : Bool :=
  p.data.isPrefixOf s.data

/-- The embedding of `GridReturn.__getitem__`. -/
def GridReturn.getitem (g : GridReturn) (key : String) : Except PyErr AttrVal :=
  if pyLower key == "data" then .ok (.dataVal g.data_)
  else if pyStartsWith (pyLower key) "select" then g.lookupAttr "selected"
  else if pyStartsWith (pyLower key) "column" then g.lookupAttr "state"
  else .error (.keyError key)

/-- The embedding of grid_builder.py _process_conversion_errors. -/
def process_conversion_errors (convert : Bool) (errors : String) : Except String String :=
  if convert && !(errors == "raise" || errors == "ignore") then
    .error ("Error handling " ++ errors ++ " is invalid, should be raise or ignore")
  else
    .ok errors

/-- C1: decoding a widget response of None returns the original input
unchanged with no selection data, and a response whose rowData collection
is empty is treated identically. -/
theorem c1_decode_none_and_empty_identity
    (data : DataElement) (conv : Bool) (errors : String) (resp : WidgetResponse)
    (hempty : resp.rowData = []) :
    generate_response none data conv errors = ⟨.original data, none, none, none⟩ ∧
    generate_response (some resp) data conv errors = ⟨.original data, none, none, none⟩ := by
  constructor
  · rfl
  · simp [generate_response, hempty]

/-- Witness for C1 at a concrete frame input and an empty response. -/
theorem c1_decode_none_and_empty_identity_witness :
    generate_response none (.frame ["a"] 2) true "raise" =
      ⟨.original (.frame ["a"] 2), none, none, none⟩ ∧
    generate_response (some ⟨[], none, none, none⟩) (.frame ["a"] 2) true "raise" =
      ⟨.original (.frame ["a"] 2), none, none, none⟩ :=
  c1_decode_none_and_empty_identity (.frame ["a"] 2) true "raise" ⟨[], none, none, none⟩ rfl

/-- C2 counterexample: a pandas-frame input with columns ["a", "b"] and a
non-empty response whose records report their keys as ["b", "a"] decodes
to a frame whose column order is the response's ["b", "a"], not the
original ["a", "b"]: pd.DataFrame(rowData) adopts the records' key order
and astype never reorders, so the claimed same-column-order property
fails for this response. -/
theorem c2_decode_column_order_counterexample :
    generate_response (some ⟨[["b", "a"]], none, none, none⟩)
        (.frame ["a", "b"] 1) true "ignore" =
      ⟨.frameOut ["b", "a"] 1, none, none, none⟩ ∧
    ResultData.frameOut ["b", "a"] 1 ≠ .frameOut ["a", "b"] 1 := by
  refine ⟨by decide, by decide⟩

/-- C2 amended: for a non-empty response the decoder's result has the
container kind of the original input; the pandas branch (and the
non-convert pyarrow branch) keeps the working table's columns, which
equal the original columns exactly when the response reports them back in
the original order, while the pyarrow convert branch adopts the original
schema order unconditionally; dict and string inputs pass through with no
coercion attempted (their result does not depend on the coercion flag or
error policy). -/
theorem c2_decode_preserves_container_kind
    (data : DataElement) (resp : WidgetResponse) (conv : Bool) (errors : String)
    (hne : resp.rowData ≠ []) :
    ((generate_response (some resp) data conv errors).data_.kind = data.kind) ∧
    (∀ cols n, data = .frame cols n → dfColumns resp.rowData = cols →
      (generate_response (some resp) data conv errors).data_ =
        .frameOut cols resp.rowData.length) ∧
    (∀ cols n, data = .table cols n → conv = true →
      (generate_response (some resp) data conv errors).data_ =
        .tableOut cols resp.rowData.length) ∧
    (∀ cols n, data = .table cols n → conv = false → dfColumns resp.rowData = cols →
      (generate_response (some resp) data conv errors).data_ =
        .tableOut cols resp.rowData.length) ∧
    (∀ n, data = .array n →
      (generate_response (some resp) data conv errors).data_ =
        .arrayOut resp.rowData.length) ∧
    (∀ cols, data = .dict cols → ∀ conv2 errors2,
      generate_response (some resp) data conv errors =
        generate_response (some resp) data conv2 errors2) ∧
    (∀ v, data = .text v → ∀ conv2 errors2,
      generate_response (some resp) data conv errors =
        generate_response (some resp) data conv2 errors2) := by
  have h0 : ¬ (resp.rowData.length = 0) := by
    simpa [List.length_eq_zero] using hne
  refine ⟨?_, ?_, ?_, ?_, ?_, ?_, ?_⟩
  · cases data <;> simp [generate_response, h0, ResultData.kind, DataElement.kind] <;>
      cases conv <;> simp
  · rintro cols n rfl hcols
    simp [generate_response, h0, hcols]
  · rintro cols n rfl rfl
    simp [generate_response, h0]
  · rintro cols n rfl rfl hcols
    simp [generate_response, h0, hcols]
  · rintro n rfl
    simp [generate_response, h0]
  · rintro cols rfl conv2 errors2
    simp [generate_response, h0]
  · rintro v rfl conv2 errors2
    simp [generate_response, h0]

/-- Witness for C2 at a concrete dict input and one-row response. -/
theorem c2_decode_preserves_container_kind_witness :
    ((generate_response (some ⟨[["a"]], none, none, none⟩) (.dict ["a"]) true "ignore").data_.kind
      = (DataElement.dict ["a"]).kind) ∧
    (generate_response (some ⟨[["a"]], none, none, none⟩) (.dict ["a"]) true "ignore" =
      generate_response (some ⟨[["a"]], none, none, none⟩) (.dict ["a"]) false "raise") := by
  have h := c2_decode_preserves_container_kind (.dict ["a"]) ⟨[["a"]], none, none, none⟩
    true "ignore" (by decide)
  exact ⟨h.1, h.2.2.2.2.2.1 ["a"] rfl false "raise"⟩

/-- C4 counterexample: with conversion enabled the validator rejects the
value "coerce" instead of returning it unchanged. -/
theorem c4_coerce_rejected_counterexample :
    process_conversion_errors true "coerce" =
      .error "Error handling coerce is invalid, should be raise or ignore" ∧
    process_conversion_errors true "coerce" ≠ .ok "coerce" :=
  ⟨rfl, fun h => nomatch h⟩

/-- C4 amended: when conversion is enabled the validator returns its input
unchanged exactly for "raise" and "ignore" and fails with a validation
error for every other value, "coerce" included; when conversion is
disabled no check occurs and the input is returned as-is. -/
theorem c4_conversion_error_policy_amended (convert : Bool) (errors : String) :
    (errors = "raise" ∨ errors = "ignore" →
      process_conversion_errors convert errors = .ok errors) ∧
    (convert = false → process_conversion_errors convert errors = .ok errors) ∧
    (convert = true → errors ≠ "raise" → errors ≠ "ignore" →
      process_conversion_errors convert errors =
        .error ("Error handling " ++ errors ++ " is invalid, should be raise or ignore")) := by
  refine ⟨?_, ?_, ?_⟩
  · rintro (rfl | rfl) <;> cases convert <;> simp [process_conversion_errors]
  · rintro rfl
    simp [process_conversion_errors]
  · rintro rfl hr hi
    simp [process_conversion_errors, hr, hi]

/-- Witness for C4 amended at concrete policy values. -/
theorem c4_conversion_error_policy_amended_witness :
    process_conversion_errors true "raise" = .ok "raise" ∧
    process_conversion_errors false "coerce" = .ok "coerce" :=
  ⟨(c4_conversion_error_policy_amended true "raise").1 (Or.inl rfl),
   (c4_conversion_error_policy_amended false "coerce").2.1 rfl⟩

/-- C10: on every GridReturn the selected_rows and selected_items
properties raise AttributeError (they read the never-defined attributes
`selected` and `state`), indexing with a key whose lowercase form starts
with "select" or "column" raises AttributeError, and only the data and
selected_data accessors and indexing with the key "data" succeed. -/
theorem c10_grid_return_accessors (g : GridReturn) (key : String) :
    g.selectedRowsProp = .error (.attributeError "selected") ∧
    g.selectedItemsProp = .error (.attributeError "state") ∧
    (pyStartsWith (pyLower key) "select" = true →
      g.getitem key = .error (.attributeError "selected")) ∧
    (pyStartsWith (pyLower key) "column" = true →
      ∃ nm, g.getitem key = .error (.attributeError nm)) ∧
    g.dataProp = .ok (.dataVal g.data_) ∧
    g.selectedDataProp = .ok (.selVal g.sel_data) ∧
    g.getitem "data" = .ok (.dataVal g.data_) := by
  refine ⟨rfl, rfl, ?_, ?_, rfl, rfl, ?_⟩
  · intro h
    by_cases h2 : pyLower key = "data"
    · rw [h2] at h
      exact absurd h (by decide)
    · have h2b : (pyLower key == "data") = false := by
        simpa using h2
      simp [GridReturn.getitem, h2b, h, GridReturn.lookupAttr]
  · intro h
    by_cases h2 : pyLower key = "data"
    · rw [h2] at h
      exact absurd h (by decide)
    · have h2b : (pyLower key == "data") = false := by
        simpa using h2
      by_cases h3 : pyStartsWith (pyLower key) "select"
      · exact ⟨"selected", by simp [GridReturn.getitem, h2b, h3, GridReturn.lookupAttr]⟩
      · have h3b : pyStartsWith (pyLower key) "select" = false := by
          simpa using h3
        exact ⟨"state", by simp [GridReturn.getitem, h2b, h3b, h, GridReturn.lookupAttr]⟩
  · have hc : (pyLower "data" == "data") = true := by decide
    simp [GridReturn.getitem, hc]

/-- Witness for C10 at a concrete GridReturn and concrete keys. -/
theorem c10_grid_return_accessors_witness :
    (GridReturn.mk (.original (.array 1)) none none none).getitem "selectedRows" =
      .error (.attributeError "selected") ∧
    (∃ nm, (GridReturn.mk (.original (.array 1)) none none none).getitem "columnState" =
      .error (.attributeError nm)) :=
  ⟨(c10_grid_return_accessors ⟨.original (.array 1), none, none, none⟩ "selectedRows").2.2.1
      (by decide : pyStartsWith (pyLower "selectedRows") "select" = true),
   (c10_grid_return_accessors ⟨.original (.array 1), none, none, none⟩ "columnState").2.2.2.1
      (by decide : pyStartsWith (pyLower "columnState") "column" = true)⟩

/-- The embedding of grid_options_builder.py GridOptionsBuilder: its two
dictionaries.  In the working form `columnDefs` maps each field name to its
definition dict; `build` materializes it into a list. -/
structure GridOptionsBuilder where
  grid_options : List (String × GVal)
  default_options : List (String × GVal)

/-- The default options dictionary set by `__init__`. -/
def defaultOptionsInit : List (String × GVal) :=
  [("minWidth", .n 100), ("editable", .b false), ("sortable", .b true), ("resizable", .b true)]

/-- The embedding of `GridOptionsBuilder.__init__` without extra kwargs
(every call in the sources passes none). -/
def GridOptionsBuilder.init (grid_options : Option (List (String × GVal))) :
    GridOptionsBuilder :=
  let go := grid_options.getD []
  let go := if dmem go "columnDefs" then go else dset go "columnDefs" (.obj [])
  ⟨go, defaultOptionsInit⟩

/-- Helper for the substring scan of strContains. -/
def containsAux (needle : List Char) : List Char → Bool
  | [] => needle.isPrefixOf ([] : List Char)
  | c :: rest => needle.isPrefixOf (c :: rest) || containsAux needle rest

/-- Executable embedding of the Python `in` operator on strings. -/
def strContains (hay needle : String) : Bool :=
  containsAux needle.data hay.data

/-- The embedding of `GridOptionsBuilder.add_column`.  `options` is the
kwargs dict, which in Python is never None, so the dead default-options
branch of the source is not taken. -/
def GridOptionsBuilder.add_column (o : GridOptionsBuilder) (field : String)
    (header : Option String) (options : List (String × GVal)) :
    Except String GridOptionsBuilder :=
  match dget o.grid_options "columnDefs" with
  | some (.obj defs) =>
      if dmem defs field then
        .error ("Field " ++ field ++ " exists in options; use update_column instead.")
      else
        let header_name := header.getD field
        let d := dupdate [("headerName", .s header_name), ("field", .s field)] options
        .ok { o with
              grid_options := dset o.grid_options "columnDefs" (.obj (dset defs field (.obj d))) }
  | _ => .error "TypeError: columnDefs is not in its dict working form"

/-- The embedding of `GridOptionsBuilder.update_column`.  The header falls
back to the field name when the argument is absent or falsy (empty). -/
def GridOptionsBuilder.update_column (o : GridOptionsBuilder) (field : String)
    (header : Option String) (options : List (String × GVal)) :
    Except String GridOptionsBuilder :=
  match dget o.grid_options "columnDefs" with
  | some (.obj defs) =>
      if !(dmem defs field) then
        .error ("Field " ++ field ++ " does not exist in options; use add_column instead.")
      else
        match dget defs field with
        | some (.obj d) =>
            let hn := match header with
              | some h => if h == "" then field else h
              | none => field
            let d := dset d "headerName" (.s hn)
            let d := dupdate d options
            .ok { o with
                  grid_options :=
                    dset o.grid_options "columnDefs" (.obj (dset defs field (.obj d))) }
        | _ => .error "TypeError: the stored column definition is not a dict"
  | _ => .error "TypeError: columnDefs is not in its dict working form"

/-- The embedding of `_pandas_types`: the argument is `str(dtype)` as
passed by `from_data`. -/
def pandas_types (d : String) : List (String × GVal) :=
  if (d == "i" || d == "u" || d == "f") ||
      (["int", "float", "double"].any (fun y => strContains d y)) then
    [("type", .s "numericColumn"), ("filter", .s "numberColumnFilter")]
  else if d == "m" then
    [("type", .s "timedeltaFormat")]
  else if d == "M" then
    [("type", .s "dateColumn"), ("filter", .s "dateColumnFilter")]
  else
    [("type", .s "rightAligned"), ("filter", .s "textColumnFilter")]

/-- The embedding of `GridOptionsBuilder.from_data`.  The input is the
column list of the frame produced by convert_anything_to_df: each column
name paired with its dtype rendered by `str`. -/
def GridOptionsBuilder.from_data (columns : List (String × String)) :
    Except String GridOptionsBuilder :=
  let opt := GridOptionsBuilder.init (some [])
  let opt := { opt with
               grid_options := dset opt.grid_options "defaultColDef" (.obj opt.default_options) }
  columns.foldlM (fun o nd =>
    let o := if strContains nd.1 "." then
        { o with grid_options := dset o.grid_options "suppressFieldDotNotation" (.b true) }
      else o
    o.add_column nd.1 (some nd.1) (pandas_types nd.2)) opt

/-- The embedding of `GridOptionsBuilder.build`: materialize the working
columnDefs dict into a list of its values. -/
def GridOptionsBuilder.build (o : GridOptionsBuilder) :
    Except String (List (String × GVal)) :=
  match dget o.grid_options "columnDefs" with
  | some (.list _) => .ok o.grid_options
  | some (.obj defs) =>
      .ok (dset o.grid_options "columnDefs" (.list (defs.map (fun kv => kv.2))))
  | some _ => .error "AttributeError: columnDefs has no values method"
  | none => .error "KeyError: columnDefs"

/-- The grid_builder.py GridBuilder.__new__ path for `grid_options=None`:
build the default options from the data and, when no explicit height is
given, add the auto-height layout key (lines 187-210). -/
def assemble_default_grid_options (columns : List (String × String)) (height : Option Int) :
    Except String (List (String × GVal)) := do
  let opt ← GridOptionsBuilder.from_data columns
  let go ← opt.build
  match height with
  | none => .ok (dupdate go [("domLayout", .s "autoHeight")])
  | some _ => .ok go

/-- C6: add_column on an existing field fails with the duplicate-field
error and update_column on a missing field fails with the missing-field
error; the non-error cases return the updated builder (same object,
only columnDefs changed). -/
theorem c6_add_update_column_exclusive
    (o : GridOptionsBuilder) (field : String) (header : Option String)
    (options : List (String × GVal)) (defs : List (String × GVal))
    (hdefs : dget o.grid_options "columnDefs" = some (.obj defs)) :
    (dmem defs field = true →
      o.add_column field header options =
        .error ("Field " ++ field ++ " exists in options; use update_column instead.")) ∧
    (dmem defs field = false →
      ∃ go2, o.add_column field header options =
        .ok (GridOptionsBuilder.mk go2 o.default_options)) ∧
    (dmem defs field = false →
      o.update_column field header options =
        .error ("Field " ++ field ++ " does not exist in options; use add_column instead.")) ∧
    (∀ d, dget defs field = some (.obj d) →
      ∃ go2, o.update_column field header options =
        .ok (GridOptionsBuilder.mk go2 o.default_options)) := by
  refine ⟨?_, ?_, ?_, ?_⟩
  · intro hmem
    simp [GridOptionsBuilder.add_column, hdefs, hmem]
  · intro hmem
    refine ⟨dset o.grid_options "columnDefs"
        (.obj (dset defs field
          (.obj (dupdate [("headerName", .s (header.getD field)), ("field", .s field)]
            options)))), ?_⟩
    simp [GridOptionsBuilder.add_column, hdefs, hmem]
  · intro hmem
    simp [GridOptionsBuilder.update_column, hdefs, hmem]
  · intro d hd
    have hmem : dmem defs field = true := by simp [dmem, hd]
    refine ⟨dset o.grid_options "columnDefs"
        (.obj (dset defs field
          (.obj (dupdate
            (dset d "headerName"
              (.s (match header with
                   | some h => if h == "" then field else h
                   | none => field)))
            options)))), ?_⟩
    simp [GridOptionsBuilder.update_column, hdefs, hmem, hd]

/-- Witness for C6 on a fresh builder with the field "x". -/
theorem c6_add_update_column_exclusive_witness :
    dget (GridOptionsBuilder.init (some [])).grid_options "columnDefs" = some (.obj []) ∧
    (∃ go2, (GridOptionsBuilder.init (some [])).add_column "x" none [] =
      .ok (GridOptionsBuilder.mk go2 (GridOptionsBuilder.init (some [])).default_options)) ∧
    (GridOptionsBuilder.init (some [])).update_column "x" none [] =
      .error ("Field " ++ "x" ++ " does not exist in options; use add_column instead.") :=
  ⟨rfl,
   (c6_add_update_column_exclusive (GridOptionsBuilder.init (some [])) "x" none [] [] rfl).2.1 rfl,
   (c6_add_update_column_exclusive (GridOptionsBuilder.init (some [])) "x" none [] [] rfl).2.2.1 rfl⟩

/-- C8 divergence witness: the default column generator receives the full
dtype strings ("datetime64[ns]", "timedelta64[ns]") and compares them
against the single-character kind codes "M" and "m", so datetime and
duration columns fall through to the text branch; on the spec's 3-column
example the column order, the numeric and text pairings and the
auto-height key come out as documented, but the datetime column is tagged
with the text filter instead of the date filter. -/
theorem c8_datetime_column_gets_text_filter :
    pandas_types "datetime64[ns]" =
      [("type", .s "rightAligned"), ("filter", .s "textColumnFilter")] ∧
    pandas_types "timedelta64[ns]" =
      [("type", .s "rightAligned"), ("filter", .s "textColumnFilter")] ∧
    assemble_default_grid_options
        [("id", "int64"), ("name", "object"), ("joined", "datetime64[ns]")] none =
      .ok [("columnDefs", .list [
              .obj [("headerName", .s "id"), ("field", .s "id"),
                    ("type", .s "numericColumn"), ("filter", .s "numberColumnFilter")],
              .obj [("headerName", .s "name"), ("field", .s "name"),
                    ("type", .s "rightAligned"), ("filter", .s "textColumnFilter")],
              .obj [("headerName", .s "joined"), ("field", .s "joined"),
                    ("type", .s "rightAligned"), ("filter", .s "textColumnFilter")]]),
            ("defaultColDef", .obj [("minWidth", .n 100), ("editable", .b false),
                                    ("sortable", .b true), ("resizable", .b true)]),
            ("domLayout", .s "autoHeight")] :=
  ⟨rfl, rfl, rfl⟩

/-- The embedding of `GridOptionsBuilder.add_grid_selection`.  The
"disabled" branch pops exactly the six keys the source names, including
the misspelled `rowMultiSeletWithClick`; the enabling branch forces
suppress-click-selection on when checkboxes are used, attaches the
checkbox flags to the first column definition, attaches non-empty
pre-selected rows, and then updates the six (correctly spelled)
selection keys. -/
def GridOptionsBuilder.add_grid_selection (o : GridOptionsBuilder)
    (selection_mode : String)
    (use_checkbox use_header_checkbox use_header_checkbox_filtered
      clear_checkbox_on_reload : Bool)
    (pre_selected_rows : Option (List Int))
    (multi_select_with_click suppress_deselection suppress_click_selection
      group_selects_children group_selects_filtered : Bool) :
    Except String GridOptionsBuilder :=
  if selection_mode == "disabled" then
    let go := dpop (dpop (dpop (dpop (dpop (dpop o.grid_options "rowSelection")
      "rowMultiSeletWithClick") "suppressRowDeselection") "suppressRowClickSelection")
      "groupSelectsChildren") "groupSelectsFiltered"
    .ok { o with grid_options := go }
  else do
    let step ←
      if use_checkbox then
        match dget o.grid_options "columnDefs" with
        | some (.obj []) => Except.error "StopIteration"
        | some (.obj ((k1, .obj d1) :: rest)) =>
            let d1 := dupdate d1
              [("checkboxSelection", .b true),
               ("headerCheckboxSelection", .b use_header_checkbox),
               ("headerCheckboxSelectionFilteredOnly", .b use_header_checkbox_filtered)]
            let go := dset o.grid_options "columnDefs" (.obj ((k1, .obj d1) :: rest))
            Except.ok (true, dset go "clearCheckboxOnReload" (.b clear_checkbox_on_reload))
        | some (.obj ((_, _) :: _)) =>
            Except.error "AttributeError: the first column definition is not a dict"
        | some _ => Except.error "AttributeError: columnDefs has no keys method"
        | none => Except.error "KeyError: columnDefs"
      else Except.ok (suppress_click_selection, o.grid_options)
    let go := match pre_selected_rows with
      | some l => if l.length > 0 then dset step.2 "preSelectedRows" (.list (l.map GVal.n))
                  else step.2
      | none => step.2
    let go := dupdate go
      [("rowSelection",
        .s (if pyStartsWith (pyLower selection_mode) "si" then "single" else "multiple")),
       ("rowMultiSelectWithClick", .b multi_select_with_click),
       ("suppressRowDeselection", .b suppress_deselection),
       ("suppressRowClickSelection", .b step.1),
       ("groupSelectsChildren", .b group_selects_children),
       ("groupSelectsFiltered", .b group_selects_filtered)]
    .ok { o with grid_options := go }

/-- C5 divergence witness: enabling selection with multi-select-with-click
and then calling the selection configurator with mode "disabled" leaves
the enabling key `rowMultiSelectWithClick` in the configuration, because
the disabled branch pops a misspelled key; so not every key previously
set by enabling selection is stripped. -/
theorem c5_disabled_leaves_multiselect_key :
    (GridOptionsBuilder.init (some [])).add_grid_selection
        "multiple" false false false false none true false false true true =
      .ok (GridOptionsBuilder.mk
        [("columnDefs", .obj []), ("rowSelection", .s "multiple"),
         ("rowMultiSelectWithClick", .b true), ("suppressRowDeselection", .b false),
         ("suppressRowClickSelection", .b false), ("groupSelectsChildren", .b true),
         ("groupSelectsFiltered", .b true)] defaultOptionsInit) ∧
    (GridOptionsBuilder.mk
        [("columnDefs", .obj []), ("rowSelection", .s "multiple"),
         ("rowMultiSelectWithClick", .b true), ("suppressRowDeselection", .b false),
         ("suppressRowClickSelection", .b false), ("groupSelectsChildren", .b true),
         ("groupSelectsFiltered", .b true)] defaultOptionsInit).add_grid_selection
        "disabled" false false false false none false false false true true =
      .ok (GridOptionsBuilder.mk
        [("columnDefs", .obj []), ("rowMultiSelectWithClick", .b true)] defaultOptionsInit) ∧
    dget [("columnDefs", GVal.obj []), ("rowMultiSelectWithClick", GVal.b true)]
        "rowMultiSelectWithClick" = some (.b true) :=
  ⟨rfl, rfl, rfl⟩

/-- Kind of column definition carrying the checkbox-selection flag. -/
def hasCheckboxFlag : GVal → Bool
  | .obj kvs => dmem kvs "checkboxSelection"
  | _ => false

/-- The scan of `_process_update_on` over the column definitions: stop at
the first definition carrying the checkbox-selection flag. -/
def scanCheckboxDefs : List GVal → Except String Bool
  | [] => .ok false
  | .obj kvs :: rest =>
      if dmem kvs "checkboxSelection" then .ok true else scanCheckboxDefs rest
  | _ :: _ => .error "AttributeError: column definition has no keys method"

/-- The embedding of grid_builder.py _process_update_on; the Python
function returns (and mutates) the caller's list, and the returned value
is what is modelled. -/
def process_update_on (update_on : Option (List String)) (options : List (String × GVal)) :
    Except String (List String) :=
  let updates := update_on.getD ["columnVisible"]
  if updates.contains "selectionChanged" then .ok updates
  else
    match dget options "columnDefs" with
    | some (.list defs) => do
        let found ← scanCheckboxDefs defs
        .ok (if found then updates ++ ["selectionChanged"] else updates)
    | some (.obj []) => .ok updates
    | some (.obj (_ :: _)) => .error "AttributeError: str has no keys method"
    | some _ => .error "TypeError: columnDefs is not iterable"
    | none => .error "KeyError: columnDefs"

/-- On a list of dict column definitions the scan computes exactly whether
some definition carries the checkbox flag. -/
theorem scanCheckboxDefs_eq (defs : List GVal)
    (hobjs : ∀ d ∈ defs, ∃ kvs, d = GVal.obj kvs) :
    scanCheckboxDefs defs = .ok (defs.any hasCheckboxFlag) := by
  induction defs with
  | nil => rfl
  | cons d rest ih =>
      obtain ⟨kvs, rfl⟩ := hobjs d (by simp)
      by_cases h : dmem kvs "checkboxSelection"
      · simp [scanCheckboxDefs, hasCheckboxFlag, h]
      · have h2 : dmem kvs "checkboxSelection" = false := by simpa using h
        simp [scanCheckboxDefs, hasCheckboxFlag, h2,
          ih (fun x hx => hobjs x (by simp [hx]))]

/-- C9: for an assembled configuration (columnDefs materialized as a list
of dict definitions) and a caller-supplied trigger list, a
selection-changed trigger is appended exactly when some definition
carries the checkbox-selection flag and the list does not already contain
the trigger; otherwise the list is returned unchanged. -/
theorem c9_update_on_augmentation
    (updates : List String) (options : List (String × GVal)) (defs : List GVal)
    (hdefs : dget options "columnDefs" = some (.list defs))
    (hobjs : ∀ d ∈ defs, ∃ kvs, d = GVal.obj kvs) :
    (updates.contains "selectionChanged" = false →
      defs.any hasCheckboxFlag = true →
      process_update_on (some updates) options = .ok (updates ++ ["selectionChanged"])) ∧
    (updates.contains "selectionChanged" = true →
      process_update_on (some updates) options = .ok updates) ∧
    (updates.contains "selectionChanged" = false →
      defs.any hasCheckboxFlag = false →
      process_update_on (some updates) options = .ok updates) := by
  refine ⟨?_, ?_, ?_⟩
  · intro hc ha
    have hc2 : "selectionChanged" ∉ updates := by simpa using hc
    simp [process_update_on, hdefs, hc2, scanCheckboxDefs_eq defs hobjs, ha, bind, Except.bind]
  · intro hc
    have hc2 : "selectionChanged" ∈ updates := by simpa using hc
    simp [process_update_on, hc2]
  · intro hc ha
    have hc2 : "selectionChanged" ∉ updates := by simpa using hc
    simp [process_update_on, hdefs, hc2, scanCheckboxDefs_eq defs hobjs, ha, bind, Except.bind]

/-- Witness for C9 at a concrete configuration with a checkbox column. -/
theorem c9_update_on_augmentation_witness :
    process_update_on (some ["columnVisible"])
        [("columnDefs", .list [.obj [("checkboxSelection", .b true)]])] =
      .ok (["columnVisible"] ++ ["selectionChanged"]) ∧
    process_update_on (some ["selectionChanged"])
        [("columnDefs", .list [.obj [("checkboxSelection", .b true)]])] =
      .ok ["selectionChanged"] :=
  ⟨(c9_update_on_augmentation ["columnVisible"]
      [("columnDefs", .list [.obj [("checkboxSelection", .b true)]])]
      [.obj [("checkboxSelection", .b true)]]
      rfl (fun d hd => ⟨[("checkboxSelection", .b true)], by simpa using hd⟩)).1 rfl rfl,
   (c9_update_on_augmentation ["selectionChanged"]
      [("columnDefs", .list [.obj [("checkboxSelection", .b true)]])]
      [.obj [("checkboxSelection", .b true)]]
      rfl (fun d hd => ⟨[("checkboxSelection", .b true)], by simpa using hd⟩)).2.1 rfl⟩

mutual

/-- The embedding of grid_options_builder.py walk_grid_options, returning
the mutated argument.  A Mapping recurses entry-wise; a non-empty List
input crashes (iterating a list binds its elements as `k` and `grid_opts[k]`
then indexes the list with a non-integer; the sources only ever pass the
top-level options dict, whose list entries are handled inline below); any
other value fails the isinstance guard and is returned untouched. -/
def walk_grid_options (f : GVal → GVal) : GVal → Except String GVal
  | .obj kvs => do
      let kvs2 ← walkEntries f kvs
      pure (GVal.obj kvs2)
  | .list [] => pure (.list [])
  | .list (_ :: _) => Except.error "TypeError: list indices must be integers"
  | v => pure v

/-- Entry loop of walk_grid_options over a Mapping: a dict value recurses;
a list value has walk_grid_options applied to each element and then -- the
source's for/else, which always runs because the loop never breaks -- the
function applied to the whole list and assigned back; every other value is
left untouched, so the function is never applied to a leaf stored directly
under a mapping key. -/
def walkEntries (f : GVal → GVal) : List (String × GVal) → Except String (List (String × GVal))
  | [] => pure []
  | (k, .obj kvs) :: rest => do
      let v2 ← walk_grid_options f (.obj kvs)
      let rest2 ← walkEntries f rest
      pure ((k, v2) :: rest2)
  | (k, .list xs) :: rest => do
      let xs2 ← walkList f xs
      let rest2 ← walkEntries f rest
      pure ((k, f (.list xs2)) :: rest2)
  | (k, v) :: rest => do
      let rest2 ← walkEntries f rest
      pure ((k, v) :: rest2)

/-- The inner loop over a list value: walk_grid_options applied to each
element in order. -/
def walkList (f : GVal → GVal) : List GVal → Except String (List GVal)
  | [] => pure []
  | x :: xs => do
      let x2 ← walk_grid_options f x
      let xs2 ← walkList f xs
      pure (x2 :: xs2)

end

/-- The leaf function GridBuilder.__new__ passes to the walk:
`lambda v: v.code if isinstance(v, JsCode) else v`. -/
def jsCodeReplacer : GVal → GVal
  | .js code => .s code
  | v => v

/-- C3 divergence witness: on a finished configuration holding a JsCode
token directly under a mapping key, walk_grid_options returns the
configuration unchanged -- the leaf function is never applied to the leaf,
although applying it would replace the token -- so the walk does not apply
the leaf function to every leaf value exactly once. -/
theorem c3_walk_misses_mapping_leaves :
    walk_grid_options jsCodeReplacer
        (.obj [("getRowStyle", .js "--x_x--0_0--function(p) return 1;--x_x--0_0--"),
               ("animateRows", .b true)]) =
      .ok (.obj [("getRowStyle", .js "--x_x--0_0--function(p) return 1;--x_x--0_0--"),
                 ("animateRows", .b true)]) ∧
    jsCodeReplacer (.js "--x_x--0_0--function(p) return 1;--x_x--0_0--") =
      .s "--x_x--0_0--function(p) return 1;--x_x--0_0--" ∧
    GVal.js "--x_x--0_0--function(p) return 1;--x_x--0_0--" ≠
      GVal.s "--x_x--0_0--function(p) return 1;--x_x--0_0--" :=
  ⟨rfl, rfl, fun h => nomatch h⟩

/-- Space or tab, the regex class [ \t]. -/
def isSpaceTab (c : Char) : Bool := c == ' ' || c == '\t'

/-- The regex class \s for the ASCII range the sources exercise. -/
def isPyWs (c : Char) : Bool :=
  c == ' ' || c == '\t' || c == '\n' || c == '\r' || c == Char.ofNat 11 || c == Char.ofNat 12

/-- A quote character (single or double), the class [\'\"]. -/
def isQuote (c : Char) : Bool := c == Char.ofNat 39 || c == Char.ofNat 34

/-- Generic left-to-right regex-substitution scan, the evaluation model of
re.sub for patterns that never match the empty string: at each position
try the pattern; on a match emit the replacement and resume after the
consumed text, else emit one character and advance.  The Bool tracks
whether the position is at a line start (for MULTILINE ^); a match hands
back the flag for the position that follows it.  The fuel starts at the
input length, which suffices because every step consumes at least one
character. -/
def reSubScan (tryAt : Bool → List Char → Option (List Char × List Char × Bool)) :
    Nat → Bool → List Char → List Char
  | 0, _, cs => cs
  | _ + 1, _, [] => []
  | fuel + 1, atLS, c :: cs =>
      match tryAt atLS (c :: cs) with
      | some (repl, rest, ls2) => repl ++ reSubScan tryAt fuel ls2 rest
      | none => c :: reSubScan tryAt fuel (c == '\n') cs

/-- A lambda-argument character, the class [a-zA-Z, ]. -/
def isLambdaArgChar (c : Char) : Bool := c.isAlpha || c == ',' || c == ' '

/-- Match of the arrow-function pattern [ \t]*\(([a-zA-Z, ]*)\)[ \t]*=> at
the head of the input, returning the captured argument list and the rest.
Each greedy class here is followed by a character outside the class, so
the backtracking regex match is this deterministic parse. -/
def matchLambda (cs : List Char) : Option (List Char × List Char) :=
  match cs.dropWhile isSpaceTab with
  | '(' :: r2 =>
      let args := r2.takeWhile isLambdaArgChar
      match r2.dropWhile isLambdaArgChar with
      | ')' :: r4 =>
          match r4.dropWhile isSpaceTab with
          | '=' :: '>' :: r6 => some (args, r6)
          | _ => none
      | _ => none
  | _ => none

/-- Pattern hook for the arrow-function rewrite, replacement function(\1). -/
def tryLambda (_ : Bool) (cs : List Char) : Option (List Char × List Char × Bool) :=
  (matchLambda cs).map (fun ar =>
    ("function(".data ++ ar.1 ++ [')'], ar.2, false))

/-- Stage 1 of JsCode.__init__: rewrite arrow-shorthand parameter lists
into full function form. -/
def codeNoLambda (cs : List Char) : List Char :=
  reSubScan tryLambda cs.length true cs

/-- Rest of the input after the first closing */ marker (the lazy
[\s\S]*?\*\/ of the block-comment alternative). -/
def splitAtClose : List Char → Option (List Char)
  | [] => none
  | '*' :: '/' :: rest => some rest
  | _ :: rest => splitAtClose rest

/-- The line-comment alternative ([^\\:]|^)\/\/.*$ (MULTILINE), tried when
the block alternative fails: first a protecting single character not in
[\\:] followed by //, then, at a line start, a bare //; the match runs to
the end of the line and the replacement \1 keeps the protecting character. -/
def tryLineComment (atLS : Bool) (cs : List Char) : Option (List Char × List Char × Bool) :=
  match cs with
  | c :: rest =>
      if (!(c == '\\') && !(c == ':')) &&
          (match rest with | '/' :: '/' :: _ => true | _ => false) then
        match rest with
        | '/' :: '/' :: r2 => some ([c], r2.dropWhile (fun x => !(x == '\n')), false)
        | _ => none
      else if atLS then
        match cs with
        | '/' :: '/' :: r2 => some ([], r2.dropWhile (fun x => !(x == '\n')), false)
        | _ => none
      else none
  | [] => none

/-- Pattern hook for comment removal: the block alternative first, then
the line alternative. -/
def tryComment (atLS : Bool) (cs : List Char) : Option (List Char × List Char × Bool) :=
  match cs with
  | '/' :: '*' :: rest =>
      match splitAtClose rest with
      | some rest2 => some ([], rest2, false)
      | none => tryLineComment atLS cs
  | _ => tryLineComment atLS cs

/-- Stage 2 of JsCode.__init__: strip block and line comments. -/
def codeNoComment (cs : List Char) : List Char :=
  reSubScan tryComment cs.length true cs

/-- The lookahead (?=(?:[^\'\"]*[\'\"][^\'\"]*[\'\"])*[^\'\"]*$) under
MULTILINE: some stretch of the remainder containing an even number of
quote characters ends exactly at a line end (before a newline or at the
end of the input).  The Bool argument carries the parity seen so far
(true for even). -/
def lookaheadEvenQuotes : Bool → List Char → Bool
  | even, [] => even
  | even, c :: rest =>
      if c == '\n' && even then true
      else lookaheadEvenQuotes (if isQuote c then !even else even) rest

/-- Largest r between 1 and the bound such that dropping r characters of
the whitespace run satisfies the quote-parity lookahead: the greedy \s+
with backtracking takes the longest admissible run. -/
def bestWsLen (run rest : List Char) : Nat → Option Nat
  | 0 => none
  | r + 1 =>
      if lookaheadEvenQuotes true (run.drop (r + 1) ++ rest) then some (r + 1)
      else bestWsLen run rest r

/-- Pattern hook for \s+ followed by the quote-parity lookahead,
replacement a single space. -/
def tryWsQuoted (_ : Bool) (cs : List Char) : Option (List Char × List Char × Bool) :=
  let run := cs.takeWhile isPyWs
  let rest := cs.dropWhile isPyWs
  if run.length == 0 then none
  else
    match bestWsLen run rest run.length with
    | some r => some ([' '], run.drop r ++ rest, ((run.take r).getLast? == some '\n'))
    | none => none

/-- Stage 3 of JsCode.__init__: collapse whitespace runs outside quoted
string literals to a single space. -/
def codeNoSpaces (cs : List Char) : List Char :=
  reSubScan tryWsQuoted cs.length true cs

/-- Pattern hook for \s+|\r\s*|\n+ (the first alternative always wins on
whitespace), replacement a single space. -/
def tryWsAll (_ : Bool) (cs : List Char) : Option (List Char × List Char × Bool) :=
  let run := cs.takeWhile isPyWs
  if run.length == 0 then none
  else some ([' '], cs.dropWhile isPyWs, (run.getLast? == some '\n'))

/-- Stage 4 of JsCode.__init__: collapse everything onto one logical line. -/
def oneLineCode (cs : List Char) : List Char :=
  reSubScan tryWsAll cs.length true cs

/-- The full processing pipeline of JsCode.__init__ in source order. -/
def jsProcess (cs : List Char) : List Char :=
  oneLineCode (codeNoSpaces (codeNoComment (codeNoLambda cs)))

/-- The fixed sentinel marker of code.py. -/
def placeholderChars : List Char := "--x_x--0_0--".data

/-- The injected_code attribute: the processed one-line body wrapped
between the two sentinel markers. -/
def jsInjectedCode (code : String) : String :=
  String.mk (placeholderChars ++ jsProcess code.data ++ placeholderChars)

/-- The embedding of str.replace(pat, other-empty): remove every
occurrence of the pattern, scanning left to right without overlap. -/
def removeAllOcc (pat : List Char) : Nat → List Char → List Char
  | 0, cs => cs
  | _ + 1, [] => []
  | fuel + 1, c :: cs =>
      if pat.isPrefixOf (c :: cs) then removeAllOcc pat fuel ((c :: cs).drop pat.length)
      else c :: removeAllOcc pat fuel cs

/-- The one_liner method: strip the sentinel markers from the token. -/
def jsOneLiner (token : String) : String :=
  String.mk (removeAllOcc placeholderChars token.data.length token.data)

/-- C7 counterexample: for the script "(a) /*x*/ => 1" the comment blocks
the arrow-function rewrite on the first encoding, comment removal then
exposes the arrow pattern, and re-encoding the unwrapped content rewrites
it, yielding a different token; so the encoder is not idempotent on the
unwrapped content for every input script. -/
theorem c7_double_encode_counterexample :
    jsInjectedCode "(a) /*x*/ => 1" = "--x_x--0_0--(a) => 1--x_x--0_0--" ∧
    jsOneLiner (jsInjectedCode "(a) /*x*/ => 1") = "(a) => 1" ∧
    jsInjectedCode (jsOneLiner (jsInjectedCode "(a) /*x*/ => 1")) =
      "--x_x--0_0--function(a) 1--x_x--0_0--" ∧
    jsInjectedCode (jsOneLiner (jsInjectedCode "(a) /*x*/ => 1")) ≠
      jsInjectedCode "(a) /*x*/ => 1" := by
  refine ⟨by decide, by decide, by decide, by decide⟩

/-- C7 amended: unwrapping an encoded token and re-encoding it yields the
same token exactly for scripts whose processed one-line body is a fixed
point of the processing pipeline and is recovered intact by sentinel
stripping; re-encoding can differ when a pipeline stage (such as comment
removal) exposes new rewritable text. -/
theorem c7_idempotent_on_fixed_points (code : String)
    (hfix : jsProcess (jsProcess code.data) = jsProcess code.data)
    (hclean : jsOneLiner (jsInjectedCode code) = String.mk (jsProcess code.data)) :
    jsInjectedCode (jsOneLiner (jsInjectedCode code)) = jsInjectedCode code := by
  rw [hclean]
  show String.mk (placeholderChars ++ jsProcess (jsProcess code.data) ++ placeholderChars) = _
  rw [hfix]
  rfl

/-- Witness for C7 amended at the already-processed script "a = 1". -/
theorem c7_idempotent_on_fixed_points_witness :
    jsProcess (jsProcess "a = 1".data) = jsProcess "a = 1".data ∧
    jsOneLiner (jsInjectedCode "a = 1") = String.mk (jsProcess "a = 1".data) ∧
    jsInjectedCode (jsOneLiner (jsInjectedCode "a = 1")) = jsInjectedCode "a = 1" :=
  ⟨by decide, by decide,
   c7_idempotent_on_fixed_points "a = 1" (by decide) (by decide)⟩
